import Mathlib

/-!
Shallow embedding of `hamilton/plugins/pandas_extensions.py` (and, where the
spec requires it, of framework pieces not present in the excerpt), together
with theorems settling the claims about this plugin.

Conventions of the embedding:
* Python attribute values become `PyVal`; `None` is `PyVal.pyNone`, so the
  `is not None` guards of the kwargs builders translate to `≠ PyVal.pyNone`.
* A Python kwargs dict built up by in-order `kwargs["k"] = v` assignments
  becomes an association list `List (String × PyVal)` in the same order.
* Paths / buffers are modelled as `String` locations (the claims only
  exercise string paths).
* Side effects (calls into pandas, file stats, registry registrations) are
  made explicit as event traces, so ordering claims are statable.
-/

/-- Runtime values that flow into kwargs dicts.  `other n` stands for values
outside the fragment the claims inspect (callables, dtype objects, nested
dicts), indexed so equality stays decidable. -/
inductive PyVal where
  | pyNone : PyVal
  | str : String → PyVal
  | int : Int → PyVal
  | bool : Bool → PyVal
  | other : Nat → PyVal
deriving DecidableEq, Repr

/-- A Python `dict[str, ...]` in insertion order. -/
abbrev Kwargs := List (String × PyVal)

/-- Dictionary lookup (first binding wins, as in a Python dict with unique keys). -/
def Kwargs.lookup (kw : Kwargs) (k : String) : Option PyVal :=
  List.lookup k kw

/-- The in-memory value types the framework dispatches on.  The plugin only
ever declares pandas `DataFrame` (column type `Series` is registered with
`register_types` but never appears in `applicable_types`). -/
inductive ValueType where
  | dataFrame
  | series
deriving DecidableEq, Repr

/-- `DATAFRAME_TYPE = pd.DataFrame` -/
def DATAFRAME_TYPE : ValueType := ValueType.dataFrame

/-- `COLUMN_TYPE = pd.Series` -/
def COLUMN_TYPE : ValueType := ValueType.series

/-- A pandas dataframe, modelled as its columns: an association list from
column name to column contents (contents left abstract as `PyVal`). -/
abbrev DataFrame := List (String × PyVal)

/-- `sys.version_info`, restricted to the (major, minor) pair the module
compares against. -/
abbrev PyVersion := Nat × Nat

/-- `version_info < (3, 8)` — lexicographic comparison on (major, minor). -/
def versionBefore38 (v : PyVersion) : Bool :=
  v.1 < 3 || (v.1 == 3 && v.2 < 8)

/-- Observable side effects of a load/save call. -/
inductive Event where
  | libWrite : String → String → Kwargs → Event
  | libRead : String → String → Kwargs → Event
  | statFile : String → Event
deriving DecidableEq, Repr

/-- A filesystem for the metadata extractor: maps a stat-able local location
to its size in bytes; `none` where nothing stat-able exists. -/
abbrev FileSystem := String → Option Nat

/-- `str(location).startswith("https://")`, computed on the character list so
concrete instances evaluate inside the kernel. -/
def startsWithHttps (s : String) : Bool :=
  "https://".data.isPrefixOf s.data

/-- Modelled from the spec: `hamilton.io.utils.get_file_metadata` is consumed
from the framework and its source is not in this excerpt.  Per §4.3 it
returns best-effort facts about a location, and for a remote URI scheme it
cannot stat (e.g. `https://`) it degrades gracefully to returning only the
location itself, never raising.  Per §8 a successful local save yields
file-size and path facts.  The paired trace records the stat performed. -/
def get_file_metadata (fs : FileSystem) (location : String) :
    List Event × Kwargs :=
  if startsWithHttps location then
    ([], [("path", PyVal.str location)])
  else
    match fs location with
    | some size =>
        ([Event.statFile location],
         [("size", PyVal.int size), ("path", PyVal.str location)])
    | none =>
        ([Event.statFile location], [("path", PyVal.str location)])

/-- `CSVDataAdapter` dataclass: `path: str`, `sep: str = None`. -/
structure CSVDataAdapter where
  path : String
  sep : PyVal := PyVal.pyNone
deriving DecidableEq, Repr

/-- Append `(k, v)` to a kwargs dict when `v is not None`, the guard every
`_get_*_kwargs` builder in the module uses. -/
def emitUnlessNone (kw : Kwargs) (k : String) (v : PyVal) : Kwargs :=
  if v ≠ PyVal.pyNone then kw ++ [(k, v)] else kw

def CSVDataAdapter.get_loading_kwargs (a : CSVDataAdapter) : Kwargs :=
  let kwargs : Kwargs := []
  let kwargs := emitUnlessNone kwargs "sep" a.sep
  kwargs

def CSVDataAdapter.get_saving_kwargs (a : CSVDataAdapter) : Kwargs :=
  let kwargs : Kwargs := [("index", PyVal.bool false)]
  let kwargs := emitUnlessNone kwargs "sep" a.sep
  kwargs

/-- `CSVDataAdapter.save_data`: `data.to_csv(self.path, **kwargs)` then
`return utils.get_file_metadata(self.path)`. -/
def CSVDataAdapter.save_data (fs : FileSystem) (a : CSVDataAdapter)
    (_data : DataFrame) : List Event × Kwargs :=
  let writeEv := Event.libWrite "to_csv" a.path a.get_saving_kwargs
  let (statTrace, metadata) := get_file_metadata fs a.path
  (writeEv :: statTrace, metadata)

/-- What `pd.read_csv` etc. return for a given location and kwargs; the
pandas library is an opaque collaborator. -/
abbrev PandasReader := String → Kwargs → DataFrame

/-- `CSVDataAdapter.load_data`: read, then the `https://` special case for
metadata, else `get_file_metadata`. -/
def CSVDataAdapter.load_data (read_csv : PandasReader) (fs : FileSystem)
    (a : CSVDataAdapter) : List Event × DataFrame × Kwargs :=
  let df := read_csv a.path a.get_loading_kwargs
  let readEv := Event.libRead "read_csv" a.path a.get_loading_kwargs
  if startsWithHttps a.path then
    ([readEv], df, [("path", PyVal.str a.path)])
  else
    let (statTrace, metadata) := get_file_metadata fs a.path
    (readEv :: statTrace, df, metadata)

def CSVDataAdapter.name (_a : CSVDataAdapter) : String := "csv"

def CSVDataAdapter.applicable_types (_a : CSVDataAdapter) : List ValueType :=
  [DATAFRAME_TYPE]

/-- `FeatherDataLoader` dataclass: `path: str` only. -/
structure FeatherDataLoader where
  path : String
deriving DecidableEq, Repr

/-- `FeatherDataLoader.save_data`: `data.to_feather(self.path)` with no extra
kwargs, then `return utils.get_file_metadata(self.path)`. -/
def FeatherDataLoader.save_data (fs : FileSystem) (a : FeatherDataLoader)
    (_data : DataFrame) : List Event × Kwargs :=
  let writeEv := Event.libWrite "to_feather" a.path []
  let (statTrace, metadata) := get_file_metadata fs a.path
  (writeEv :: statTrace, metadata)

def FeatherDataLoader.load_data (read_feather : PandasReader) (fs : FileSystem)
    (a : FeatherDataLoader) : List Event × DataFrame × Kwargs :=
  let df := read_feather a.path []
  let readEv := Event.libRead "read_feather" a.path []
  let (statTrace, metadata) := get_file_metadata fs a.path
  (readEv :: statTrace, df, metadata)

def FeatherDataLoader.name (_a : FeatherDataLoader) : String := "feather"

def FeatherDataLoader.applicable_types (_a : FeatherDataLoader) : List ValueType :=
  [DATAFRAME_TYPE]

/-- `ParquetDataLoader` dataclass: `path: str` only. -/
structure ParquetDataLoader where
  path : String
deriving DecidableEq, Repr

def ParquetDataLoader.load_data (read_parquet : PandasReader) (fs : FileSystem)
    (a : ParquetDataLoader) : List Event × DataFrame × Kwargs :=
  let df := read_parquet a.path []
  let readEv := Event.libRead "read_parquet" a.path []
  let (statTrace, metadata) := get_file_metadata fs a.path
  (readEv :: statTrace, df, metadata)

def ParquetDataLoader.save_data (fs : FileSystem) (a : ParquetDataLoader)
    (_data : DataFrame) : List Event × Kwargs :=
  let writeEv := Event.libWrite "to_parquet" a.path []
  let (statTrace, metadata) := get_file_metadata fs a.path
  (writeEv :: statTrace, metadata)

def ParquetDataLoader.name (_a : ParquetDataLoader) : String := "parquet"

def ParquetDataLoader.applicable_types (_a : ParquetDataLoader) : List ValueType :=
  [DATAFRAME_TYPE]

/-- `PandasPickleReader` dataclass: `filepath_or_buffer`, then kwargs fields
`compression: ... = "infer"` and `storage_options: ... = None`. -/
structure PandasPickleReader where
  filepath_or_buffer : String
  compression : PyVal := PyVal.str "infer"
  storage_options : PyVal := PyVal.pyNone
deriving DecidableEq, Repr

def PandasPickleReader.applicable_types (_a : PandasPickleReader) : List ValueType :=
  [DATAFRAME_TYPE]

def PandasPickleReader.get_loading_kwargs (a : PandasPickleReader) : Kwargs :=
  let kwargs : Kwargs := []
  let kwargs := emitUnlessNone kwargs "compression" a.compression
  let kwargs := emitUnlessNone kwargs "storage_options" a.storage_options
  kwargs

def PandasPickleReader.load_data (read_pickle : PandasReader) (fs : FileSystem)
    (a : PandasPickleReader) : List Event × DataFrame × Kwargs :=
  let df := read_pickle a.filepath_or_buffer a.get_loading_kwargs
  let readEv := Event.libRead "read_pickle" a.filepath_or_buffer a.get_loading_kwargs
  let (statTrace, metadata) := get_file_metadata fs a.filepath_or_buffer
  (readEv :: statTrace, df, metadata)

def PandasPickleReader.name (_a : PandasPickleReader) : String := "pickle"

/-- `pickle_protocol_default`: 4 when `sys.version_info < (3, 8)`, else 5. -/
def pickle_protocol_default (v : PyVersion) : Int :=
  if versionBefore38 v then 4 else 5

/-- `PandasPickleWriter` dataclass: `path`, then kwargs fields
`compression = "infer"`, `protocol: int = pickle_protocol_default`,
`storage_options = None`.  The declared default of `protocol` is fixed by the
Python version of the running environment, hence the `ver` argument of
`defaultConfigured`. -/
structure PandasPickleWriter where
  path : String
  compression : PyVal := PyVal.str "infer"
  protocol : PyVal
  storage_options : PyVal := PyVal.pyNone
deriving DecidableEq, Repr

/-- A `PandasPickleWriter` constructed with every optional field left at its
declared default, under Python version `ver`. -/
def PandasPickleWriter.defaultConfigured (ver : PyVersion) (path : String) :
    PandasPickleWriter :=
  { path := path
    protocol := PyVal.int (pickle_protocol_default ver) }

def PandasPickleWriter.applicable_types (_a : PandasPickleWriter) : List ValueType :=
  [DATAFRAME_TYPE]

def PandasPickleWriter.get_saving_kwargs (a : PandasPickleWriter) : Kwargs :=
  let kwargs : Kwargs := []
  let kwargs := emitUnlessNone kwargs "compression" a.compression
  let kwargs := emitUnlessNone kwargs "protocol" a.protocol
  let kwargs := emitUnlessNone kwargs "storage_options" a.storage_options
  kwargs

def PandasPickleWriter.save_data (fs : FileSystem) (a : PandasPickleWriter)
    (_data : DataFrame) : List Event × Kwargs :=
  let writeEv := Event.libWrite "to_pickle" a.path a.get_saving_kwargs
  let (statTrace, metadata) := get_file_metadata fs a.path
  (writeEv :: statTrace, metadata)

def PandasPickleWriter.name (_a : PandasPickleWriter) : String := "pickle"

/-- `PandasJsonReader` dataclass: `filepath_or_buffer` plus the optional
kwargs fields with their declared defaults, in source order. -/
structure PandasJsonReader where
  filepath_or_buffer : String
  chunksize : PyVal := PyVal.pyNone
  compression : PyVal := PyVal.str "infer"
  convert_axes : PyVal := PyVal.pyNone
  convert_dates : PyVal := PyVal.bool true
  date_unit : PyVal := PyVal.pyNone
  dtype : PyVal := PyVal.pyNone
  dtype_backend : PyVal := PyVal.pyNone
  encoding : PyVal := PyVal.pyNone
  encoding_errors : PyVal := PyVal.str "strict"
  engine : PyVal := PyVal.str "ujson"
  keep_default_dates : PyVal := PyVal.bool true
  lines : PyVal := PyVal.bool false
  nrows : PyVal := PyVal.pyNone
  orient : PyVal := PyVal.pyNone
  precise_float : PyVal := PyVal.bool false
  storage_options : PyVal := PyVal.pyNone
  typ : PyVal := PyVal.str "frame"
deriving DecidableEq, Repr

def PandasJsonReader.applicable_types (_a : PandasJsonReader) : List ValueType :=
  [DATAFRAME_TYPE]

/-- `PandasJsonReader._get_loading_kwargs`: one `is not None` guard per field,
except `engine`, which is additionally guarded by `sys.version_info >= (3, 8)`. -/
def PandasJsonReader.get_loading_kwargs (ver : PyVersion) (a : PandasJsonReader) :
    Kwargs :=
  let kwargs : Kwargs := []
  let kwargs := emitUnlessNone kwargs "chunksize" a.chunksize
  let kwargs := emitUnlessNone kwargs "compression" a.compression
  let kwargs := emitUnlessNone kwargs "convert_axes" a.convert_axes
  let kwargs := emitUnlessNone kwargs "convert_dates" a.convert_dates
  let kwargs := emitUnlessNone kwargs "date_unit" a.date_unit
  let kwargs := emitUnlessNone kwargs "dtype" a.dtype
  let kwargs := emitUnlessNone kwargs "dtype_backend" a.dtype_backend
  let kwargs := emitUnlessNone kwargs "encoding" a.encoding
  let kwargs := emitUnlessNone kwargs "encoding_errors" a.encoding_errors
  let kwargs := if !versionBefore38 ver then
      emitUnlessNone kwargs "engine" a.engine
    else kwargs
  let kwargs := emitUnlessNone kwargs "keep_default_dates" a.keep_default_dates
  let kwargs := emitUnlessNone kwargs "lines" a.lines
  let kwargs := emitUnlessNone kwargs "nrows" a.nrows
  let kwargs := emitUnlessNone kwargs "orient" a.orient
  let kwargs := emitUnlessNone kwargs "precise_float" a.precise_float
  let kwargs := emitUnlessNone kwargs "storage_options" a.storage_options
  let kwargs := emitUnlessNone kwargs "typ" a.typ
  kwargs

def PandasJsonReader.load_data (read_json : PandasReader) (fs : FileSystem)
    (ver : PyVersion) (a : PandasJsonReader) : List Event × DataFrame × Kwargs :=
  let df := read_json a.filepath_or_buffer (a.get_loading_kwargs ver)
  let readEv := Event.libRead "read_json" a.filepath_or_buffer (a.get_loading_kwargs ver)
  let (statTrace, metadata) := get_file_metadata fs a.filepath_or_buffer
  (readEv :: statTrace, df, metadata)

def PandasJsonReader.name (_a : PandasJsonReader) : String := "json"

/-- `PandasJsonWriter` dataclass: `filepath_or_buffer` plus the optional
kwargs fields with their declared defaults, in source order. -/
structure PandasJsonWriter where
  filepath_or_buffer : String
  compression : PyVal := PyVal.str "infer"
  date_format : PyVal := PyVal.str "epoch"
  date_unit : PyVal := PyVal.str "ms"
  default_handler : PyVal := PyVal.pyNone
  double_precision : PyVal := PyVal.int 10
  force_ascii : PyVal := PyVal.bool true
  index : PyVal := PyVal.pyNone
  indent : PyVal := PyVal.int 0
  lines : PyVal := PyVal.bool false
  mode : PyVal := PyVal.str "w"
  orient : PyVal := PyVal.pyNone
  storage_options : PyVal := PyVal.pyNone
deriving DecidableEq, Repr

def PandasJsonWriter.applicable_types (_a : PandasJsonWriter) : List ValueType :=
  [DATAFRAME_TYPE]

/-- `PandasJsonWriter._get_saving_kwargs`: `is not None` guards, except
`lines` (guard `is not False`) and `mode` (additionally guarded by
`sys.version_info >= (3, 8)`). -/
def PandasJsonWriter.get_saving_kwargs (ver : PyVersion) (a : PandasJsonWriter) :
    Kwargs :=
  let kwargs : Kwargs := []
  let kwargs := emitUnlessNone kwargs "compression" a.compression
  let kwargs := emitUnlessNone kwargs "date_format" a.date_format
  let kwargs := emitUnlessNone kwargs "date_unit" a.date_unit
  let kwargs := emitUnlessNone kwargs "default_handler" a.default_handler
  let kwargs := emitUnlessNone kwargs "double_precision" a.double_precision
  let kwargs := emitUnlessNone kwargs "force_ascii" a.force_ascii
  let kwargs := emitUnlessNone kwargs "index" a.index
  let kwargs := emitUnlessNone kwargs "indent" a.indent
  let kwargs := if a.lines ≠ PyVal.bool false then
      kwargs ++ [("lines", a.lines)]
    else kwargs
  let kwargs := if !versionBefore38 ver then
      emitUnlessNone kwargs "mode" a.mode
    else kwargs
  let kwargs := emitUnlessNone kwargs "orient" a.orient
  let kwargs := emitUnlessNone kwargs "storage_options" a.storage_options
  kwargs

def PandasJsonWriter.save_data (fs : FileSystem) (ver : PyVersion)
    (a : PandasJsonWriter) (_data : DataFrame) : List Event × Kwargs :=
  let writeEv := Event.libWrite "to_json" a.filepath_or_buffer (a.get_saving_kwargs ver)
  let (statTrace, metadata) := get_file_metadata fs a.filepath_or_buffer
  (writeEv :: statTrace, metadata)

def PandasJsonWriter.name (_a : PandasJsonWriter) : String := "json"

/-- The seven adapter classes the module defines and registers, viewed at the
class level (what the registry sees). -/
inductive AdapterClass where
  | csvDataAdapter
  | featherDataLoader
  | parquetDataLoader
  | pandasPickleReader
  | pandasPickleWriter
  | pandasJsonReader
  | pandasJsonWriter
deriving DecidableEq, Repr

/-- Each class's `name()` classmethod. -/
def AdapterClass.name : AdapterClass → String
  | .csvDataAdapter => "csv"
  | .featherDataLoader => "feather"
  | .parquetDataLoader => "parquet"
  | .pandasPickleReader => "pickle"
  | .pandasPickleWriter => "pickle"
  | .pandasJsonReader => "json"
  | .pandasJsonWriter => "json"

/-- Each class's `applicable_types()` classmethod (every one returns
`[DATAFRAME_TYPE]` in the source). -/
def AdapterClass.applicable_types : AdapterClass → List ValueType
  | .csvDataAdapter => [DATAFRAME_TYPE]
  | .featherDataLoader => [DATAFRAME_TYPE]
  | .parquetDataLoader => [DATAFRAME_TYPE]
  | .pandasPickleReader => [DATAFRAME_TYPE]
  | .pandasPickleWriter => [DATAFRAME_TYPE]
  | .pandasJsonReader => [DATAFRAME_TYPE]
  | .pandasJsonWriter => [DATAFRAME_TYPE]

/-- Whether the class subclasses `DataLoader` (has a `load_data` path):
`DataFrameDataLoader` subclasses and `PandasPickleReader` / `PandasJsonReader`
do; the two writers do not. -/
def AdapterClass.isLoader : AdapterClass → Bool
  | .pandasPickleWriter => false
  | .pandasJsonWriter => false
  | _ => true

/-- Whether the class subclasses `DataSaver` (has a `save_data` path). -/
def AdapterClass.isSaver : AdapterClass → Bool
  | .pandasPickleReader => false
  | .pandasJsonReader => false
  | _ => true

/-- Calls into the framework registry observable at module import. -/
inductive RegEvent where
  | dispatchRegister : String → RegEvent
  | registerTypes : String → ValueType → ValueType → RegEvent
  | registerAdapter : AdapterClass → RegEvent
deriving DecidableEq, Repr

/-- `register_types()`: one call
`registry.register_types("pandas", DATAFRAME_TYPE, COLUMN_TYPE)`. -/
def register_types : List RegEvent :=
  [RegEvent.registerTypes "pandas" DATAFRAME_TYPE COLUMN_TYPE]

/-- `register_data_loaders()`: `registry.register_adapter(loader)` for each
class in the source's list, in order. -/
def register_data_loaders : List RegEvent :=
  [AdapterClass.csvDataAdapter,
   AdapterClass.featherDataLoader,
   AdapterClass.parquetDataLoader,
   AdapterClass.pandasPickleReader,
   AdapterClass.pandasPickleWriter,
   AdapterClass.pandasJsonReader,
   AdapterClass.pandasJsonWriter].map RegEvent.registerAdapter

/-- Registry calls performed by executing the module top level once: the two
singledispatch `register` decorators (lines 26 and 31), then `register_types()`
(line 42), then `register_data_loaders()` (line 400). -/
def module_import_events : List RegEvent :=
  [RegEvent.dispatchRegister "get_column",
   RegEvent.dispatchRegister "fill_with_scalar"]
  ++ register_types
  ++ register_data_loaders

/-- The Python heap fragment relevant to `fill_with_scalar_pandas`: dataframe
objects addressed by reference (index into the list). -/
abbrev Heap := List DataFrame

/-- `df[column_name] = value`: overwrite the named column if present,
otherwise append it; every other column is untouched. -/
def DataFrame.setColumn : DataFrame → String → PyVal → DataFrame
  | [], c, v => [(c, v)]
  | (c', v') :: rest, c, v =>
      if c' = c then (c, v) :: rest
      else (c', v') :: DataFrame.setColumn rest c v

/-- `fill_with_scalar_pandas(df, column_name, value)`: mutates the dataframe
object `df` points to (`df[column_name] = value`) and returns `df` itself.
The heap is threaded explicitly so the in-place effect is observable. -/
def fill_with_scalar_pandas (heap : Heap) (df : Nat) (column_name : String)
    (value : PyVal) : Heap × Nat :=
  (heap.set df (DataFrame.setColumn (heap.getD df []) column_name value), df)

/-- The error a run-id conflict raises (a `RuntimeError` in the test). -/
inductive MLFlowSaveError where
  | runIdConflict : String → String → MLFlowSaveError
deriving DecidableEq, Repr

/-- Modelled from the spec: `MLFlowModelSaver` lives in
`hamilton/plugins/mlflow_extensions.py`, which is not in this excerpt; only
its test is.  Per §4.4 its save parameters are a flavor, an optional explicit
run-id, an optional registration name and extra kwargs. -/
structure MLFlowModelSaver where
  path : String := "model"
  flavor : PyVal := PyVal.pyNone
  run_id : Option String := none
  register_as : Option String := none
deriving DecidableEq, Repr

/-- The ML-tracking collaborator's state: the currently active run, if any,
and the artifacts logged so far as (run-id, artifact-path) pairs. -/
structure MLFlowState where
  active_run : Option String
  artifacts : List (String × String)
deriving DecidableEq, Repr

/-- Logging a model under `run`: one artifact appears under that run and the
metadata gains the `model_uri` the tests read back. -/
def mlflow_log_model (st : MLFlowState) (s : MLFlowModelSaver) (run : String) :
    MLFlowState × Except MLFlowSaveError Kwargs :=
  ({ st with artifacts := st.artifacts ++ [(run, s.path)] },
   Except.ok [("model_uri", PyVal.str ("runs:/" ++ run ++ "/" ++ s.path))])

/-- Modelled from the spec: `MLFlowModelSaver.save_data`.  Per §4.4 / §7 it
"fails with a conflict error if caller supplies a run-id that differs from the
currently active tracking run", detected eagerly before any I/O; otherwise it
logs the model under the explicit run-id, the active run, or a fresh run
(matching the module's tests). -/
def MLFlowModelSaver.save_data (st : MLFlowState) (s : MLFlowModelSaver) :
    MLFlowState × Except MLFlowSaveError Kwargs :=
  match s.run_id, st.active_run with
  | some r, some a =>
      if r ≠ a then (st, Except.error (MLFlowSaveError.runIdConflict r a))
      else mlflow_log_model st s a
  | some r, none => mlflow_log_model st s r
  | none, some a => mlflow_log_model st s a
  | none, none => mlflow_log_model st s "fresh-run"

/-! ## Helper lemmas -/

theorem lookup_setColumn_self (d : DataFrame) (c : String) (v : PyVal) :
    Kwargs.lookup (DataFrame.setColumn d c v) c = some v := by
  induction d with
  | nil => simp [DataFrame.setColumn, Kwargs.lookup, List.lookup]
  | cons hd tl ih =>
      obtain ⟨c', v'⟩ := hd
      by_cases h : c' = c
      · subst h
        simp [DataFrame.setColumn, Kwargs.lookup, List.lookup]
      · have hb : (c == c') = false := by
          simp only [beq_eq_false_iff_ne]
          exact Ne.symm h
        simp only [DataFrame.setColumn, if_neg h, Kwargs.lookup, List.lookup, hb]
        exact ih

theorem lookup_setColumn_ne (d : DataFrame) (c c' : String) (v : PyVal)
    (h : c' ≠ c) :
    Kwargs.lookup (DataFrame.setColumn d c v) c' = Kwargs.lookup d c' := by
  have hb : (c' == c) = false := by
    simp only [beq_eq_false_iff_ne]
    exact h
  induction d with
  | nil => simp [DataFrame.setColumn, Kwargs.lookup, List.lookup, hb]
  | cons hd tl ih =>
      obtain ⟨k, w⟩ := hd
      by_cases hk : k = c
      · subst hk
        simp [DataFrame.setColumn, Kwargs.lookup, List.lookup, hb]
      · simp only [DataFrame.setColumn, if_neg hk, Kwargs.lookup, List.lookup]
        cases hkc : (c' == k) with
        | true => rfl
        | false => exact ih

theorem meta_https (fs : FileSystem) (loc : String)
    (h : startsWithHttps loc = true) :
    get_file_metadata fs loc = ([], [("path", PyVal.str loc)]) := by
  simp [get_file_metadata, h]

/-! ## Claim theorems -/

/-- C2: for every dataframe and every `CSVDataAdapter` (any path, any
separator), `save_data` passes kwargs to the underlying `to_csv` call that
always contain `index=False`: the first event of the save is the `to_csv`
write with `_get_saving_kwargs()`, and that kwargs dict maps `"index"` to
`False` unconditionally. -/
theorem C2_csv_save_never_writes_index (fs : FileSystem) (a : CSVDataAdapter)
    (data : DataFrame) :
    (CSVDataAdapter.save_data fs a data).1.head?
        = some (Event.libWrite "to_csv" a.path a.get_saving_kwargs) ∧
    Kwargs.lookup a.get_saving_kwargs "index" = some (PyVal.bool false) := by
  constructor
  · unfold CSVDataAdapter.save_data
    rcases h : get_file_metadata fs a.path with ⟨t, m⟩
    simp [h]
  · unfold CSVDataAdapter.get_saving_kwargs emitUnlessNone
    split <;> simp [Kwargs.lookup, List.lookup]

/-- C5: each of the seven adapter classes reports `applicable_types()` equal
to `[DATAFRAME_TYPE]` and its constant format name, independent of any
constructor arguments / instance state. -/
theorem C5_fixed_name_and_types :
    (∀ a : CSVDataAdapter, a.name = "csv" ∧ a.applicable_types = [DATAFRAME_TYPE]) ∧
    (∀ a : FeatherDataLoader, a.name = "feather" ∧ a.applicable_types = [DATAFRAME_TYPE]) ∧
    (∀ a : ParquetDataLoader, a.name = "parquet" ∧ a.applicable_types = [DATAFRAME_TYPE]) ∧
    (∀ a : PandasPickleReader, a.name = "pickle" ∧ a.applicable_types = [DATAFRAME_TYPE]) ∧
    (∀ a : PandasPickleWriter, a.name = "pickle" ∧ a.applicable_types = [DATAFRAME_TYPE]) ∧
    (∀ a : PandasJsonReader, a.name = "json" ∧ a.applicable_types = [DATAFRAME_TYPE]) ∧
    (∀ a : PandasJsonWriter, a.name = "json" ∧ a.applicable_types = [DATAFRAME_TYPE]) ∧
    (∀ c : AdapterClass, c.applicable_types = [DATAFRAME_TYPE]) := by
  refine ⟨fun _ => ⟨rfl, rfl⟩, fun _ => ⟨rfl, rfl⟩, fun _ => ⟨rfl, rfl⟩,
    fun _ => ⟨rfl, rfl⟩, fun _ => ⟨rfl, rfl⟩, fun _ => ⟨rfl, rfl⟩,
    fun _ => ⟨rfl, rfl⟩, fun c => ?_⟩
  cases c <;> rfl

/-- C8: executing the module top level performs, among its registry calls,
exactly one `register_types("pandas", DATAFRAME_TYPE, COLUMN_TYPE)` call, and
its `register_adapter` calls are exactly one per adapter class, for the seven
classes in the source's order and for nothing else. -/
theorem C8_import_registers_once :
    module_import_events.filter
        (fun e => match e with
          | RegEvent.registerAdapter _ => true
          | _ => false)
      = [RegEvent.registerAdapter AdapterClass.csvDataAdapter,
         RegEvent.registerAdapter AdapterClass.featherDataLoader,
         RegEvent.registerAdapter AdapterClass.parquetDataLoader,
         RegEvent.registerAdapter AdapterClass.pandasPickleReader,
         RegEvent.registerAdapter AdapterClass.pandasPickleWriter,
         RegEvent.registerAdapter AdapterClass.pandasJsonReader,
         RegEvent.registerAdapter AdapterClass.pandasJsonWriter] ∧
    module_import_events.count
        (RegEvent.registerTypes "pandas" DATAFRAME_TYPE COLUMN_TYPE) = 1 := by
  constructor <;> decide

/-- C1 counterexample: a `PandasPickleReader` constructed with every optional
field left at its declared default does NOT yield an empty kwargs dict —
`compression` defaults to `"infer"`, which is not `None`, so
`_get_loading_kwargs` emits it even though the caller never set it. -/
theorem C1_counterexample :
    ({ filepath_or_buffer := "data.pkl" } : PandasPickleReader).get_loading_kwargs
        = [("compression", PyVal.str "infer")] ∧
    ({ filepath_or_buffer := "data.pkl" } : PandasPickleReader).get_loading_kwargs
        ≠ [] := by
  constructor <;> decide

/-- C1 amended: a field is omitted from the kwargs dict iff its value is
`None` (for the JSON writer's `lines` field: iff it is `False`), so a
default-configured adapter yields exactly the entries for optional fields
whose declared default is not `None`: nothing for CSV loading (and only the
hard-coded `index=False` for CSV saving), `compression="infer"` for pickle
reading, `compression` and `protocol` for pickle writing, and the non-`None`
defaults of the JSON reader and writer, on Python 3.8+. -/
theorem C1_amended_default_kwargs (ver : PyVersion) (p : String)
    (h : versionBefore38 ver = false) :
    ({ path := p } : CSVDataAdapter).get_loading_kwargs = [] ∧
    ({ path := p } : CSVDataAdapter).get_saving_kwargs
        = [("index", PyVal.bool false)] ∧
    ({ filepath_or_buffer := p } : PandasPickleReader).get_loading_kwargs
        = [("compression", PyVal.str "infer")] ∧
    (PandasPickleWriter.defaultConfigured ver p).get_saving_kwargs
        = [("compression", PyVal.str "infer"), ("protocol", PyVal.int 5)] ∧
    ({ filepath_or_buffer := p } : PandasJsonReader).get_loading_kwargs ver
        = [("compression", PyVal.str "infer"),
           ("convert_dates", PyVal.bool true),
           ("encoding_errors", PyVal.str "strict"),
           ("engine", PyVal.str "ujson"),
           ("keep_default_dates", PyVal.bool true),
           ("lines", PyVal.bool false),
           ("precise_float", PyVal.bool false),
           ("typ", PyVal.str "frame")] ∧
    ({ filepath_or_buffer := p } : PandasJsonWriter).get_saving_kwargs ver
        = [("compression", PyVal.str "infer"),
           ("date_format", PyVal.str "epoch"),
           ("date_unit", PyVal.str "ms"),
           ("double_precision", PyVal.int 10),
           ("force_ascii", PyVal.bool true),
           ("indent", PyVal.int 0),
           ("mode", PyVal.str "w")] := by
  refine ⟨rfl, rfl, rfl, ?_, ?_, ?_⟩
  · simp [PandasPickleWriter.defaultConfigured, PandasPickleWriter.get_saving_kwargs,
      pickle_protocol_default, emitUnlessNone, h]
  · simp [PandasJsonReader.get_loading_kwargs, emitUnlessNone, h]
  · simp [PandasJsonWriter.get_saving_kwargs, emitUnlessNone, h]

theorem C1_amended_default_kwargs_witness :
    versionBefore38 (3, 11) = false ∧
    ({ path := "df.csv" } : CSVDataAdapter).get_loading_kwargs = [] ∧
    ({ path := "df.csv" } : CSVDataAdapter).get_saving_kwargs
        = [("index", PyVal.bool false)] ∧
    ({ filepath_or_buffer := "df.csv" } : PandasPickleReader).get_loading_kwargs
        = [("compression", PyVal.str "infer")] ∧
    (PandasPickleWriter.defaultConfigured (3, 11) "df.csv").get_saving_kwargs
        = [("compression", PyVal.str "infer"), ("protocol", PyVal.int 5)] ∧
    ({ filepath_or_buffer := "df.csv" } : PandasJsonReader).get_loading_kwargs (3, 11)
        = [("compression", PyVal.str "infer"),
           ("convert_dates", PyVal.bool true),
           ("encoding_errors", PyVal.str "strict"),
           ("engine", PyVal.str "ujson"),
           ("keep_default_dates", PyVal.bool true),
           ("lines", PyVal.bool false),
           ("precise_float", PyVal.bool false),
           ("typ", PyVal.str "frame")] ∧
    ({ filepath_or_buffer := "df.csv" } : PandasJsonWriter).get_saving_kwargs (3, 11)
        = [("compression", PyVal.str "infer"),
           ("date_format", PyVal.str "epoch"),
           ("date_unit", PyVal.str "ms"),
           ("double_precision", PyVal.int 10),
           ("force_ascii", PyVal.bool true),
           ("indent", PyVal.int 0),
           ("mode", PyVal.str "w")] :=
  ⟨by decide, C1_amended_default_kwargs (3, 11) "df.csv" (by decide)⟩

/-- C6 counterexample: `PandasPickleReader` and `PandasPickleWriter` are two
distinct adapter classes this module registers with the same format name
`"pickle"`, and their `applicable_types()` are NOT disjoint — both contain
the dataframe type — so (format-name, value-type) alone does not uniquely
identify an adapter. -/
theorem C6_counterexample :
    AdapterClass.pandasPickleReader ≠ AdapterClass.pandasPickleWriter ∧
    AdapterClass.name AdapterClass.pandasPickleReader
        = AdapterClass.name AdapterClass.pandasPickleWriter ∧
    DATAFRAME_TYPE ∈ AdapterClass.applicable_types AdapterClass.pandasPickleReader ∧
    DATAFRAME_TYPE ∈ AdapterClass.applicable_types AdapterClass.pandasPickleWriter := by
  refine ⟨by decide, rfl, by decide, by decide⟩

/-- C6 amended: among the classes this module registers, same-named classes
with overlapping type-sets are distinguished by direction — the true key is
(format-name, value-type, loader-or-saver): any two classes that share a
format name, share an applicable type, and share a direction (both loaders or
both savers) are the same class. -/
theorem C6_amended_name_type_direction_key (c1 c2 : AdapterClass)
    (hname : c1.name = c2.name)
    (htype : c1.applicable_types ∩ c2.applicable_types ≠ [])
    (hdir : (c1.isLoader = true ∧ c2.isLoader = true) ∨
            (c1.isSaver = true ∧ c2.isSaver = true)) :
    c1 = c2 := by
  revert hname htype hdir
  cases c1 <;> cases c2 <;> decide

theorem C6_amended_name_type_direction_key_witness :
    AdapterClass.name AdapterClass.pandasPickleReader
        = AdapterClass.name AdapterClass.pandasPickleReader ∧
    AdapterClass.pandasPickleReader = AdapterClass.pandasPickleReader :=
  ⟨rfl, C6_amended_name_type_direction_key AdapterClass.pandasPickleReader
    AdapterClass.pandasPickleReader rfl (by decide) (Or.inl ⟨by decide, by decide⟩)⟩

/-- C7: `pickle_protocol_default` is 5 when the Python version is 3.8 or
later and 4 otherwise, and a default-configured `PandasPickleWriter` always
includes that (non-`None`) default under the `protocol` key of its saving
kwargs. -/
theorem C7_pickle_protocol_default (ver : PyVersion) (path : String) :
    (3 < ver.1 ∨ (ver.1 = 3 ∧ 8 ≤ ver.2) →
      pickle_protocol_default ver = 5 ∧
      Kwargs.lookup
          (PandasPickleWriter.defaultConfigured ver path).get_saving_kwargs
          "protocol" = some (PyVal.int 5)) ∧
    (ver.1 < 3 ∨ (ver.1 = 3 ∧ ver.2 < 8) →
      pickle_protocol_default ver = 4 ∧
      Kwargs.lookup
          (PandasPickleWriter.defaultConfigured ver path).get_saving_kwargs
          "protocol" = some (PyVal.int 4)) := by
  constructor
  · intro h
    have h38 : versionBefore38 ver = false := by
      simp only [versionBefore38, Bool.or_eq_false_iff, Bool.and_eq_false_iff,
        decide_eq_false_iff_not, beq_eq_false_iff_ne]
      omega
    have hp : pickle_protocol_default ver = 5 := by
      simp [pickle_protocol_default, h38]
    refine ⟨hp, ?_⟩
    simp [PandasPickleWriter.defaultConfigured, PandasPickleWriter.get_saving_kwargs,
      emitUnlessNone, hp, Kwargs.lookup, List.lookup]
  · intro h
    have h38 : versionBefore38 ver = true := by
      simp only [versionBefore38, Bool.or_eq_true, Bool.and_eq_true,
        decide_eq_true_eq, beq_iff_eq]
      omega
    have hp : pickle_protocol_default ver = 4 := by
      simp [pickle_protocol_default, h38]
    refine ⟨hp, ?_⟩
    simp [PandasPickleWriter.defaultConfigured, PandasPickleWriter.get_saving_kwargs,
      emitUnlessNone, hp, Kwargs.lookup, List.lookup]

theorem C7_pickle_protocol_default_witness :
    ((3 : Nat) < 3 ∨ ((3 : Nat) = 3 ∧ (8 : Nat) ≤ 11)) ∧
    (pickle_protocol_default (3, 11) = 5 ∧
      Kwargs.lookup
          (PandasPickleWriter.defaultConfigured (3, 11) "m.pkl").get_saving_kwargs
          "protocol" = some (PyVal.int 5)) :=
  ⟨by decide, (C7_pickle_protocol_default (3, 11) "m.pkl").1 (by decide)⟩

/-- C3: for every adapter load or save whose location is a remote
`https://` URI, metadata extraction degrades gracefully instead of failing:
the extractor (total in this model, so it never raises) returns only the
location, and the metadata mapping each operation returns contains the
location itself under the `"path"` key. -/
theorem C3_remote_uri_degrades_gracefully (fs : FileSystem) (ver : PyVersion)
    (loc : String) (h : startsWithHttps loc = true) :
    (get_file_metadata fs loc).2 = [("path", PyVal.str loc)] ∧
    (∀ (r : PandasReader) (a : CSVDataAdapter), a.path = loc →
      ("path", PyVal.str loc) ∈ (CSVDataAdapter.load_data r fs a).2.2) ∧
    (∀ (a : CSVDataAdapter) (d : DataFrame), a.path = loc →
      ("path", PyVal.str loc) ∈ (CSVDataAdapter.save_data fs a d).2) ∧
    (∀ (r : PandasReader) (a : FeatherDataLoader), a.path = loc →
      ("path", PyVal.str loc) ∈ (FeatherDataLoader.load_data r fs a).2.2) ∧
    (∀ (a : FeatherDataLoader) (d : DataFrame), a.path = loc →
      ("path", PyVal.str loc) ∈ (FeatherDataLoader.save_data fs a d).2) ∧
    (∀ (r : PandasReader) (a : ParquetDataLoader), a.path = loc →
      ("path", PyVal.str loc) ∈ (ParquetDataLoader.load_data r fs a).2.2) ∧
    (∀ (a : ParquetDataLoader) (d : DataFrame), a.path = loc →
      ("path", PyVal.str loc) ∈ (ParquetDataLoader.save_data fs a d).2) ∧
    (∀ (r : PandasReader) (a : PandasPickleReader), a.filepath_or_buffer = loc →
      ("path", PyVal.str loc) ∈ (PandasPickleReader.load_data r fs a).2.2) ∧
    (∀ (a : PandasPickleWriter) (d : DataFrame), a.path = loc →
      ("path", PyVal.str loc) ∈ (PandasPickleWriter.save_data fs a d).2) ∧
    (∀ (r : PandasReader) (a : PandasJsonReader), a.filepath_or_buffer = loc →
      ("path", PyVal.str loc) ∈ (PandasJsonReader.load_data r fs ver a).2.2) ∧
    (∀ (a : PandasJsonWriter) (d : DataFrame), a.filepath_or_buffer = loc →
      ("path", PyVal.str loc) ∈ (PandasJsonWriter.save_data fs ver a d).2) := by
  refine ⟨by simp [meta_https fs loc h], ?_, ?_, ?_, ?_, ?_, ?_, ?_, ?_, ?_, ?_⟩
  · intro r a ha
    subst ha
    unfold CSVDataAdapter.load_data
    simp [h]
  · intro a d ha
    subst ha
    unfold CSVDataAdapter.save_data
    rw [meta_https fs a.path h]
    simp
  · intro r a ha
    subst ha
    unfold FeatherDataLoader.load_data
    rw [meta_https fs a.path h]
    simp
  · intro a d ha
    subst ha
    unfold FeatherDataLoader.save_data
    rw [meta_https fs a.path h]
    simp
  · intro r a ha
    subst ha
    unfold ParquetDataLoader.load_data
    rw [meta_https fs a.path h]
    simp
  · intro a d ha
    subst ha
    unfold ParquetDataLoader.save_data
    rw [meta_https fs a.path h]
    simp
  · intro r a ha
    subst ha
    unfold PandasPickleReader.load_data
    rw [meta_https fs a.filepath_or_buffer h]
    simp
  · intro a d ha
    subst ha
    unfold PandasPickleWriter.save_data
    rw [meta_https fs a.path h]
    simp
  · intro r a ha
    subst ha
    unfold PandasJsonReader.load_data
    rw [meta_https fs a.filepath_or_buffer h]
    simp
  · intro a d ha
    subst ha
    unfold PandasJsonWriter.save_data
    rw [meta_https fs a.filepath_or_buffer h]
    simp

theorem C3_remote_uri_degrades_gracefully_witness :
    startsWithHttps "https://host/df.csv" = true ∧
    (get_file_metadata (fun _ => none) "https://host/df.csv").2
        = [("path", PyVal.str "https://host/df.csv")] :=
  ⟨by decide,
   (C3_remote_uri_degrades_gracefully (fun _ => none) (3, 11) "https://host/df.csv"
     (by decide)).1⟩

/-- C4: every save first performs the underlying pandas write on the
configured location and then returns exactly the metadata extractor's result
for that location; every load returns the deserialized dataframe paired with
a metadata mapping, the metadata extraction being the final step (its stat
events follow the read event in the trace).  The CSV loader's `https://`
branch substitutes `{"path": path}` for the extractor's result. -/
theorem C4_save_load_shapes (fs : FileSystem) (ver : PyVersion) :
    (∀ (a : CSVDataAdapter) (d : DataFrame),
      CSVDataAdapter.save_data fs a d =
        (Event.libWrite "to_csv" a.path a.get_saving_kwargs
            :: (get_file_metadata fs a.path).1,
         (get_file_metadata fs a.path).2)) ∧
    (∀ (a : FeatherDataLoader) (d : DataFrame),
      FeatherDataLoader.save_data fs a d =
        (Event.libWrite "to_feather" a.path [] :: (get_file_metadata fs a.path).1,
         (get_file_metadata fs a.path).2)) ∧
    (∀ (a : ParquetDataLoader) (d : DataFrame),
      ParquetDataLoader.save_data fs a d =
        (Event.libWrite "to_parquet" a.path [] :: (get_file_metadata fs a.path).1,
         (get_file_metadata fs a.path).2)) ∧
    (∀ (a : PandasPickleWriter) (d : DataFrame),
      PandasPickleWriter.save_data fs a d =
        (Event.libWrite "to_pickle" a.path a.get_saving_kwargs
            :: (get_file_metadata fs a.path).1,
         (get_file_metadata fs a.path).2)) ∧
    (∀ (a : PandasJsonWriter) (d : DataFrame),
      PandasJsonWriter.save_data fs ver a d =
        (Event.libWrite "to_json" a.filepath_or_buffer (a.get_saving_kwargs ver)
            :: (get_file_metadata fs a.filepath_or_buffer).1,
         (get_file_metadata fs a.filepath_or_buffer).2)) ∧
    (∀ (r : PandasReader) (a : CSVDataAdapter),
      CSVDataAdapter.load_data r fs a =
        (if startsWithHttps a.path then
          ([Event.libRead "read_csv" a.path a.get_loading_kwargs],
           r a.path a.get_loading_kwargs, [("path", PyVal.str a.path)])
        else
          (Event.libRead "read_csv" a.path a.get_loading_kwargs
              :: (get_file_metadata fs a.path).1,
           r a.path a.get_loading_kwargs, (get_file_metadata fs a.path).2))) ∧
    (∀ (r : PandasReader) (a : FeatherDataLoader),
      FeatherDataLoader.load_data r fs a =
        (Event.libRead "read_feather" a.path [] :: (get_file_metadata fs a.path).1,
         r a.path [], (get_file_metadata fs a.path).2)) ∧
    (∀ (r : PandasReader) (a : ParquetDataLoader),
      ParquetDataLoader.load_data r fs a =
        (Event.libRead "read_parquet" a.path [] :: (get_file_metadata fs a.path).1,
         r a.path [], (get_file_metadata fs a.path).2)) ∧
    (∀ (r : PandasReader) (a : PandasPickleReader),
      PandasPickleReader.load_data r fs a =
        (Event.libRead "read_pickle" a.filepath_or_buffer a.get_loading_kwargs
            :: (get_file_metadata fs a.filepath_or_buffer).1,
         r a.filepath_or_buffer a.get_loading_kwargs,
         (get_file_metadata fs a.filepath_or_buffer).2)) ∧
    (∀ (r : PandasReader) (a : PandasJsonReader),
      PandasJsonReader.load_data r fs ver a =
        (Event.libRead "read_json" a.filepath_or_buffer (a.get_loading_kwargs ver)
            :: (get_file_metadata fs a.filepath_or_buffer).1,
         r a.filepath_or_buffer (a.get_loading_kwargs ver),
         (get_file_metadata fs a.filepath_or_buffer).2)) := by
  refine ⟨?_, ?_, ?_, ?_, ?_, ?_, ?_, ?_, ?_, ?_⟩
  · intro a d
    unfold CSVDataAdapter.save_data
    rcases hm : get_file_metadata fs a.path with ⟨t, m⟩
    simp [hm]
  · intro a d
    unfold FeatherDataLoader.save_data
    rcases hm : get_file_metadata fs a.path with ⟨t, m⟩
    simp [hm]
  · intro a d
    unfold ParquetDataLoader.save_data
    rcases hm : get_file_metadata fs a.path with ⟨t, m⟩
    simp [hm]
  · intro a d
    unfold PandasPickleWriter.save_data
    rcases hm : get_file_metadata fs a.path with ⟨t, m⟩
    simp [hm]
  · intro a d
    unfold PandasJsonWriter.save_data
    rcases hm : get_file_metadata fs a.filepath_or_buffer with ⟨t, m⟩
    simp [hm]
  · intro r a
    unfold CSVDataAdapter.load_data
    cases hps : startsWithHttps a.path with
    | true => simp [hps]
    | false =>
        rcases hm : get_file_metadata fs a.path with ⟨t, m⟩
        simp [hps, hm]
  · intro r a
    unfold FeatherDataLoader.load_data
    rcases hm : get_file_metadata fs a.path with ⟨t, m⟩
    simp [hm]
  · intro r a
    unfold ParquetDataLoader.load_data
    rcases hm : get_file_metadata fs a.path with ⟨t, m⟩
    simp [hm]
  · intro r a
    unfold PandasPickleReader.load_data
    rcases hm : get_file_metadata fs a.filepath_or_buffer with ⟨t, m⟩
    simp [hm]
  · intro r a
    unfold PandasJsonReader.load_data
    rcases hm : get_file_metadata fs a.filepath_or_buffer with ⟨t, m⟩
    simp [hm]

/-- C9: when the caller supplies an explicit run-id while a different
tracking run is active, `MLFlowModelSaver.save_data` fails eagerly with the
run-id conflict error and leaves the tracking state (in particular its logged
artifacts) untouched — no artifact is created under either run. -/
theorem C9_run_id_conflict (st : MLFlowState) (s : MLFlowModelSaver)
    (r a : String) (hrun : s.run_id = some r) (hactive : st.active_run = some a)
    (hne : r ≠ a) :
    MLFlowModelSaver.save_data st s
        = (st, Except.error (MLFlowSaveError.runIdConflict r a)) ∧
    (MLFlowModelSaver.save_data st s).1.artifacts = st.artifacts := by
  have hmain : MLFlowModelSaver.save_data st s
      = (st, Except.error (MLFlowSaveError.runIdConflict r a)) := by
    unfold MLFlowModelSaver.save_data
    rw [hrun, hactive]
    simp [hne]
  exact ⟨hmain, by rw [hmain]⟩

theorem C9_run_id_conflict_witness :
    ({ run_id := some "run-a" } : MLFlowModelSaver).run_id = some "run-a" ∧
    ({ active_run := some "run-b", artifacts := [] } : MLFlowState).active_run
        = some "run-b" ∧
    "run-a" ≠ "run-b" ∧
    MLFlowModelSaver.save_data
        { active_run := some "run-b", artifacts := [] }
        { run_id := some "run-a" }
      = ({ active_run := some "run-b", artifacts := [] },
         Except.error (MLFlowSaveError.runIdConflict "run-a" "run-b")) :=
  ⟨rfl, rfl, by decide,
   (C9_run_id_conflict { active_run := some "run-b", artifacts := [] }
     { run_id := some "run-a" } "run-a" "run-b" rfl rfl (by decide)).1⟩

/-- C10: `fill_with_scalar_pandas` mutates its input dataframe in place — it
returns the very reference it was given, the named column of that object now
holds the value, every other column of that object is unchanged, and every
other object on the heap is unchanged. -/
theorem C10_fill_with_scalar_in_place (heap : Heap) (df : Nat)
    (column_name c' : String) (value : PyVal) (hdf : df < heap.length)
    (hc : c' ≠ column_name) :
    (fill_with_scalar_pandas heap df column_name value).2 = df ∧
    (fill_with_scalar_pandas heap df column_name value).1.length = heap.length ∧
    Kwargs.lookup
        ((fill_with_scalar_pandas heap df column_name value).1.getD df [])
        column_name = some value ∧
    Kwargs.lookup
        ((fill_with_scalar_pandas heap df column_name value).1.getD df []) c'
      = Kwargs.lookup (heap.getD df []) c' ∧
    (∀ j, j ≠ df →
      (fill_with_scalar_pandas heap df column_name value).1.getD j []
        = heap.getD j []) := by
  have hget : (fill_with_scalar_pandas heap df column_name value).1.getD df []
      = DataFrame.setColumn (heap.getD df []) column_name value := by
    unfold fill_with_scalar_pandas
    simp [List.getD, List.getElem?_set_self, hdf]
  refine ⟨rfl, by simp [fill_with_scalar_pandas], ?_, ?_, ?_⟩
  · rw [hget]
    exact lookup_setColumn_self _ _ _
  · rw [hget]
    exact lookup_setColumn_ne _ _ _ _ hc
  · intro j hj
    unfold fill_with_scalar_pandas
    simp [List.getD, List.getElem?_set_ne (Ne.symm hj)]

theorem C10_fill_with_scalar_in_place_witness :
    (0 : Nat) < ([[("a", PyVal.int 1), ("b", PyVal.int 2)]] : Heap).length ∧
    ("a" : String) ≠ "b" ∧
    (fill_with_scalar_pandas [[("a", PyVal.int 1), ("b", PyVal.int 2)]]
        0 "b" (PyVal.int 9)).2 = 0 ∧
    Kwargs.lookup
        ((fill_with_scalar_pandas [[("a", PyVal.int 1), ("b", PyVal.int 2)]]
            0 "b" (PyVal.int 9)).1.getD 0 []) "b" = some (PyVal.int 9) :=
  ⟨by decide, by decide,
   (C10_fill_with_scalar_in_place [[("a", PyVal.int 1), ("b", PyVal.int 2)]]
      0 "b" "a" (PyVal.int 9) (by decide) (by decide)).1,
   (C10_fill_with_scalar_in_place [[("a", PyVal.int 1), ("b", PyVal.int 2)]]
      0 "b" "a" (PyVal.int 9) (by decide) (by decide)).2.2.1⟩
